import Mathlib

/-!
Shallow embedding of the gopulse health aggregator.

Modelling conventions:
* `time.Time` instants and `time.Duration` values are both `Int`
  (nanoseconds); `now.Sub(t)` is `now - t`.
* Go `error` values are `Option GoErr`; `nil` is `none`.  The package-level
  sentinel `ErrHealthCheckExpired` is the distinguished value `GoErr.expired`.
* Go maps are association lists `List (String × α)`; map read is `lookupAL`
  (a missing key yields `none`, callers apply the Go zero value with `getD`),
  map assignment is `insertAL` (replace-or-append).  List order stands for
  the (unspecified) Go map iteration order, so theorems quantify over it.
* The buffered update channel is the queue `updateChannel`; `UpdateHealth`
  appends, the `processUpdates` consumer pops from the front.
* `float64` arithmetic in the backoff computation is modelled exactly over ℚ,
  with `time.Duration(...)` conversion as truncation toward zero.
* `checkHealth` additionally returns the list of externally observable
  actions it performed (writing `lastCheckAttempt`, invoking the two probes,
  calling `UpdateHealth`), in program order, so that statements about probe
  ordering and skipping can be made.
-/

namespace GoPulse

/-- `Priority` from the source: Critical, High, Medium, Low. -/
inductive Priority where
  | critical
  | high
  | medium
  | low
deriving DecidableEq, Repr

/-- Go `error` values (excluding `nil`, which is `Option.none`).
`expired` is the sentinel `ErrHealthCheckExpired`; `custom msg` is any other
error such as one built by `errors.New`. -/
inductive GoErr where
  | expired
  | custom (msg : String)
deriving DecidableEq, Repr

/-- `HealthStatus` from the source.  The `Checker` field is represented by
the identity string used as the store key, so it is not repeated here. -/
structure HealthStatus where
  priority : Priority
  liveness : Bool
  readiness : Bool
  lastUpdate : Int
  livenessErr : Option GoErr
  readinessErr : Option GoErr
deriving DecidableEq, Repr

/-- `Config` from the source (the callback is represented by the event the
pipeline consumer would fire, not stored here). -/
structure Config where
  expiryTime : Int
  updateBuffer : Nat
  autoUpdateEnabled : Bool
  checkInterval : Int
  initialDelay : Int
  maxBackoff : Int
  backoffFactor : ℚ

/-- Association-list read, Go `v, ok := m[k]`. -/
def lookupAL {α : Type} : List (String × α) → String → Option α
  | [], _ => none
  | (k', v') :: rest, k => if k' = k then some v' else lookupAL rest k

/-- Association-list write, Go `m[k] = v`: replace the existing entry or
append a new one. -/
def insertAL {α : Type} : List (String × α) → String → α → List (String × α)
  | [], k, v => [(k, v)]
  | (k', v') :: rest, k, v =>
    if k' = k then (k, v) :: rest else (k', v') :: insertAL rest k v

/-- Mutable state of a `HealthAggregator`: the status store, the auto-check
roster, the backoff bookkeeping maps and the pending contents of the update
channel. -/
structure AggState where
  statuses : List (String × HealthStatus)
  checkers : List String
  backoffTimes : List (String × Int)
  lastCheckAttempt : List (String × Int)
  updateChannel : List (String × HealthStatus)
deriving DecidableEq, Repr

/-- The fixed tier iteration order of `GetLiveness`/`GetReadiness`:
`[]Priority{PriorityCritical, PriorityHigh, PriorityMedium, PriorityLow}`. -/
def priorityOrder : List Priority :=
  [Priority.critical, Priority.high, Priority.medium, Priority.low]

/-- Inner loop of `GetLiveness`/`GetReadiness` for one priority tier:
skip entries of other tiers, report the first entry that is expired
(`now.Sub(status.LastUpdate) > ha.config.ExpiryTime`) or whose relevant
boolean axis is false. -/
def scanTier (cfg : Config) (now : Int) (p : Priority)
    (axis : HealthStatus → Bool) (axisErr : HealthStatus → Option GoErr) :
    List (String × HealthStatus) → Option (String × Option GoErr)
  | [] => none
  | (name, st) :: rest =>
    if st.priority ≠ p then scanTier cfg now p axis axisErr rest
    else if now - st.lastUpdate > cfg.expiryTime then some (name, some GoErr.expired)
    else if axis st = false then some (name, axisErr st)
    else scanTier cfg now p axis axisErr rest

/-- Outer loop of `GetLiveness`/`GetReadiness`: try each tier in
`priorityOrder`, returning at the first failure found. -/
def scanPriorities (cfg : Config) (now : Int)
    (axis : HealthStatus → Bool) (axisErr : HealthStatus → Option GoErr) :
    List Priority → List (String × HealthStatus) → Option (String × Option GoErr)
  | [], _ => none
  | p :: ps, l =>
    match scanTier cfg now p axis axisErr l with
    | some r => some r
    | none => scanPriorities cfg now axis axisErr ps l

/-- `GetLiveness`: the overall verdict and the error map (holding the single
inserted entry on the failing path, and empty — Go `nil` — on success). -/
def getLiveness (cfg : Config) (now : Int) (s : AggState) :
    Bool × List (String × Option GoErr) :=
  match scanPriorities cfg now (fun st => st.liveness) (fun st => st.livenessErr)
      priorityOrder s.statuses with
  | some (name, e) => (false, [(name, e)])
  | none => (true, [])

/-- `GetReadiness`: same loop as `GetLiveness` over the readiness axis. -/
def getReadiness (cfg : Config) (now : Int) (s : AggState) :
    Bool × List (String × Option GoErr) :=
  match scanPriorities cfg now (fun st => st.readiness) (fun st => st.readinessErr)
      priorityOrder s.statuses with
  | some (name, e) => (false, [(name, e)])
  | none => (true, [])

/-- `RegisterHealthCheck`: record the checker in the roster and overwrite its
store entry with the zero-value status (`Liveness`/`Readiness` false, both
error fields `nil`) stamped `LastUpdate = time.Now()`. -/
def registerHealthCheck (name : String) (priority : Priority) (now : Int)
    (s : AggState) : AggState :=
  { s with
    checkers := if s.checkers.contains name then s.checkers else s.checkers ++ [name]
    statuses := insertAL s.statuses name
      { priority := priority
        liveness := false
        readiness := false
        lastUpdate := now
        livenessErr := none
        readinessErr := none } }

/-- `UpdateHealth`: if the identity is unregistered, return with no effect;
otherwise enqueue a freshly built `HealthStatus` on the update channel. -/
def updateHealth (name : String) (livenessErr readinessErr : Option GoErr)
    (now : Int) (s : AggState) : AggState :=
  match lookupAL s.statuses name with
  | none => s
  | some st =>
    { s with
      updateChannel := s.updateChannel ++
        [(name,
          { priority := st.priority
            liveness := livenessErr.isNone
            readiness := readinessErr.isNone
            lastUpdate := now
            livenessErr := livenessErr
            readinessErr := readinessErr })] }

/-- One iteration of the `processUpdates` consumer: pop the oldest queued
update, store it, and report the `(name, status)` pair handed to the optional
`OnStatusChange` callback (`none` when the channel was empty and the
consumer would block). -/
def processUpdates1 (s : AggState) : AggState × Option (String × HealthStatus) :=
  match s.updateChannel with
  | [] => (s, none)
  | (name, st) :: rest =>
    ({ s with statuses := insertAL s.statuses name st, updateChannel := rest },
     some (name, st))

/-- Go conversion `time.Duration(q)` of an exact rational: truncation toward
zero (the denominator is positive, and `Int.tdiv` rounds toward zero). -/
def ratTruncToInt (q : ℚ) : Int := Int.tdiv q.num (q.den : Int)

/-- Backoff bookkeeping of `checkHealth` after the probes ran: on any probe
error grow the backoff (`CheckInterval / 2` from zero, else multiply by
`BackoffFactor`) and cap it at `MaxBackoff`; on full success reset it to 0. -/
def nextBackoff (cfg : Config) (backoff : Int)
    (livenessErr readinessErr : Option GoErr) : Int :=
  if livenessErr ≠ none ∨ readinessErr ≠ none then
    let b :=
      if backoff = 0 then Int.tdiv cfg.checkInterval 2
      else ratTruncToInt ((backoff : ℚ) * cfg.backoffFactor)
    if b > cfg.maxBackoff then cfg.maxBackoff else b
  else 0

/-- The skip test at the top of `checkHealth`: a positive recorded backoff,
an existing `lastCheckAttempt` entry, and `now.Sub(lastAttempt)` still below
the backoff. -/
def backoffSkip (name : String) (now : Int) (s : AggState) : Bool :=
  let backoff := (lookupAL s.backoffTimes name).getD 0
  decide (0 < backoff) &&
    match lookupAL s.lastCheckAttempt name with
    | some lastAttempt => decide (now - lastAttempt < backoff)
    | none => false

/-- Externally observable actions of one `checkHealth` cycle, in program
order: the `lastCheckAttempt` write, the two probe invocations on the
checker, and the final `UpdateHealth` call carrying both probe results. -/
inductive Event where
  | setLastAttempt (name : String) (t : Int)
  | probeLiveness (name : String)
  | probeReadiness (name : String)
  | submit (name : String) (livenessErr readinessErr : Option GoErr)
deriving DecidableEq, Repr

/-- `checkHealth` for one checker: skip while in backoff; otherwise stamp
`lastCheckAttempt`, run `CheckLiveness` then `CheckReadiness` (their results
are the `livenessErr`/`readinessErr` arguments), update the backoff map, and
submit both results through `UpdateHealth`.  Also returns the trace of
observable actions (empty for a skipped cycle). -/
def checkHealth (cfg : Config) (name : String)
    (livenessErr readinessErr : Option GoErr) (now : Int) (s : AggState) :
    AggState × List Event :=
  if backoffSkip name now s then (s, [])
  else
    let backoff := (lookupAL s.backoffTimes name).getD 0
    let s1 := { s with lastCheckAttempt := insertAL s.lastCheckAttempt name now }
    let s2 := { s1 with
      backoffTimes := insertAL s1.backoffTimes name
        (nextBackoff cfg backoff livenessErr readinessErr) }
    let s3 := updateHealth name livenessErr readinessErr now s2
    (s3,
     [Event.setLastAttempt name now, Event.probeLiveness name,
      Event.probeReadiness name, Event.submit name livenessErr readinessErr])

/-! ### Association-list lemmas -/

/-- A store entry passes one axis of a query scan: it is not expired and its
recorded boolean is true. -/
def passes (cfg : Config) (now : Int) (axis : HealthStatus → Bool)
    (st : HealthStatus) : Prop :=
  now - st.lastUpdate ≤ cfg.expiryTime ∧ axis st = true

instance (cfg : Config) (now : Int) (axis : HealthStatus → Bool)
    (st : HealthStatus) : Decidable (passes cfg now axis st) :=
  inferInstanceAs (Decidable (_ ∧ _))

/-! ### Concrete sample data, used to evaluate the theorems below on
closed inputs. -/

/-- A sample configuration (expiry 30, check interval 10, max backoff 60,
factor 2). -/
def cfgW : Config :=
  { expiryTime := 30
    updateBuffer := 100
    autoUpdateEnabled := false
    checkInterval := 10
    initialDelay := 1
    maxBackoff := 60
    backoffFactor := 2 }

/-- A freshly constructed aggregator: every map empty, channel empty. -/
def emptyAgg : AggState :=
  { statuses := [], checkers := [], backoffTimes := [], lastCheckAttempt := [],
    updateChannel := [] }

/-- A healthy Critical-priority record updated at time 0. -/
def stUpCrit : HealthStatus :=
  { priority := Priority.critical, liveness := true, readiness := true,
    lastUpdate := 0, livenessErr := none, readinessErr := none }

/-- A Critical-priority record whose liveness probe failed. -/
def stDownCrit : HealthStatus :=
  { priority := Priority.critical, liveness := false, readiness := true,
    lastUpdate := 0, livenessErr := some (GoErr.custom "boom"),
    readinessErr := none }

/-- A Low-priority record whose liveness probe failed. -/
def stDownLow : HealthStatus :=
  { priority := Priority.low, liveness := false, readiness := false,
    lastUpdate := 0, livenessErr := none, readinessErr := none }

/-- A healthy High-priority record whose last update is long past. -/
def stStale : HealthStatus :=
  { priority := Priority.high, liveness := true, readiness := true,
    lastUpdate := -100, livenessErr := none, readinessErr := none }

/-- A store holding a failing Critical checker and a failing Low checker. -/
def sCritLow : AggState :=
  { emptyAgg with statuses := [("c", stDownCrit), ("l", stDownLow)] }

/-- A store holding one healthy Critical checker. -/
def sOneUp : AggState :=
  { emptyAgg with statuses := [("x", stUpCrit)] }

/-- A store holding one stale (expired) but otherwise healthy checker. -/
def sOneStale : AggState :=
  { emptyAgg with statuses := [("s", stStale)] }

theorem lookupAL_insertAL_self {α : Type} (l : List (String × α)) (k : String)
    (v : α) : lookupAL (insertAL l k v) k = some v := by
  induction l with
  | nil => simp [insertAL, lookupAL]
  | cons hd tl ih =>
    obtain ⟨k', v'⟩ := hd
    by_cases h : k' = k
    · simp [insertAL, h, lookupAL]
    · simp [insertAL, h, lookupAL, ih]

theorem mem_insertAL_self {α : Type} (l : List (String × α)) (k : String)
    (v : α) : (k, v) ∈ insertAL l k v := by
  induction l with
  | nil => simp [insertAL]
  | cons hd tl ih =>
    obtain ⟨k', v'⟩ := hd
    by_cases h : k' = k
    · simp [insertAL, h]
    · simp only [insertAL, if_neg h, List.mem_cons]
      exact Or.inr ih

theorem mem_insertAL {α : Type} {x : String × α} {l : List (String × α)}
    {k : String} {v : α} (h : x ∈ insertAL l k v) : x = (k, v) ∨ x ∈ l := by
  induction l with
  | nil => simpa [insertAL] using h
  | cons hd tl ih =>
    obtain ⟨k', v'⟩ := hd
    by_cases hk : k' = k
    · simp only [insertAL, if_pos hk, List.mem_cons] at h
      rcases h with h | h
      · exact Or.inl h
      · exact Or.inr (List.mem_cons_of_mem _ h)
    · simp only [insertAL, if_neg hk, List.mem_cons] at h
      rcases h with h | h
      · exact Or.inr (h ▸ List.mem_cons_self _ _)
      · rcases ih h with h' | h'
        · exact Or.inl h'
        · exact Or.inr (List.mem_cons_of_mem _ h')

theorem mem_keys_insertAL {α : Type} {n : String} {l : List (String × α)}
    {k : String} {v : α} (h : n ∈ (insertAL l k v).map Prod.fst) :
    n ∈ l.map Prod.fst ∨ n = k := by
  rcases List.mem_map.mp h with ⟨x, hx, hfst⟩
  rcases mem_insertAL hx with h' | h'
  · right
    rw [← hfst, h']
  · left
    exact hfst ▸ List.mem_map_of_mem Prod.fst h'

theorem nodup_keys_insertAL {α : Type} {l : List (String × α)} (k : String)
    (v : α) (h : (l.map Prod.fst).Nodup) :
    ((insertAL l k v).map Prod.fst).Nodup := by
  induction l with
  | nil => simp [insertAL]
  | cons hd tl ih =>
    obtain ⟨k', v'⟩ := hd
    simp only [List.map_cons, List.nodup_cons] at h
    by_cases hk : k' = k
    · simp only [insertAL, if_pos hk, List.map_cons, List.nodup_cons]
      exact ⟨hk ▸ h.1, h.2⟩
    · simp only [insertAL, if_neg hk, List.map_cons, List.nodup_cons]
      refine ⟨fun hmem => ?_, ih h.2⟩
      rcases mem_keys_insertAL hmem with h' | h'
      · exact h.1 h'
      · exact hk h'

theorem val_eq_of_mem_nodup {α : Type} {l : List (String × α)} {n : String}
    {a b : α} (hnd : (l.map Prod.fst).Nodup) (ha : (n, a) ∈ l)
    (hb : (n, b) ∈ l) : a = b := by
  induction l with
  | nil => cases ha
  | cons hd tl ih =>
    obtain ⟨k, v⟩ := hd
    simp only [List.map_cons, List.nodup_cons] at hnd
    rcases List.mem_cons.mp ha with ha' | ha' <;>
      rcases List.mem_cons.mp hb with hb' | hb'
    · injection ha' with h1 h2
      injection hb' with h3 h4
      rw [h2, h4]
    · exfalso
      injection ha' with h1 h2
      exact hnd.1 (h1 ▸ List.mem_map_of_mem Prod.fst hb')
    · exfalso
      injection hb' with h1 h2
      exact hnd.1 (h1 ▸ List.mem_map_of_mem Prod.fst ha')
    · exact ih hnd.2 ha' hb'

/-! ### Query scan lemmas -/

theorem scanTier_eq_none (cfg : Config) (now : Int) (p : Priority)
    (axis : HealthStatus → Bool) (axisErr : HealthStatus → Option GoErr)
    (l : List (String × HealthStatus))
    (h : ∀ x ∈ l, x.2.priority = p → passes cfg now axis x.2) :
    scanTier cfg now p axis axisErr l = none := by
  induction l with
  | nil => rfl
  | cons hd tl ih =>
    obtain ⟨name, st⟩ := hd
    by_cases hp : st.priority = p
    · have h' := h (name, st) (List.mem_cons_self _ _) hp
      have h1 : now - st.lastUpdate ≤ cfg.expiryTime := h'.1
      have h2 : axis st = true := h'.2
      rw [scanTier, if_neg (not_not_intro hp), if_neg (by omega),
        if_neg (by simp [h2])]
      exact ih fun x hx hxp => h x (List.mem_cons_of_mem _ hx) hxp
    · rw [scanTier, if_pos hp]
      exact ih fun x hx hxp => h x (List.mem_cons_of_mem _ hx) hxp

theorem scanTier_isSome (cfg : Config) (now : Int) (p : Priority)
    (axis : HealthStatus → Bool) (axisErr : HealthStatus → Option GoErr)
    {l : List (String × HealthStatus)} {n0 : String} {st0 : HealthStatus}
    (hmem : (n0, st0) ∈ l) (hp : st0.priority = p)
    (hfail : ¬ passes cfg now axis st0) :
    ∃ r, scanTier cfg now p axis axisErr l = some r := by
  induction l with
  | nil => cases hmem
  | cons hd tl ih =>
    obtain ⟨name, st⟩ := hd
    rcases List.mem_cons.mp hmem with heq | hmemtl
    · injection heq with e1 e2
      subst e1
      subst e2
      rw [scanTier, if_neg (not_not_intro hp)]
      by_cases he : now - st0.lastUpdate > cfg.expiryTime
      · exact ⟨_, by rw [if_pos he]⟩
      · have haxis : axis st0 = false := by
          rcases Bool.eq_false_or_eq_true (axis st0) with hb | hb
          · exact absurd ⟨by omega, hb⟩ hfail
          · exact hb
        exact ⟨_, by rw [if_neg he, if_pos haxis]⟩
    · rw [scanTier]
      split
      · exact ih hmemtl
      · split
        · exact ⟨_, rfl⟩
        · split
          · exact ⟨_, rfl⟩
          · exact ih hmemtl

theorem scanTier_some_mem (cfg : Config) (now : Int) (p : Priority)
    (axis : HealthStatus → Bool) (axisErr : HealthStatus → Option GoErr)
    {l : List (String × HealthStatus)} {n : String} {e : Option GoErr}
    (h : scanTier cfg now p axis axisErr l = some (n, e)) :
    ∃ st, (n, st) ∈ l ∧ st.priority = p := by
  induction l with
  | nil => cases h
  | cons hd tl ih =>
    obtain ⟨name, st⟩ := hd
    rw [scanTier] at h
    split at h
    · obtain ⟨st', hm, hp'⟩ := ih h
      exact ⟨st', List.mem_cons_of_mem _ hm, hp'⟩
    · split at h
      · injection h with h'
        injection h' with h1 h2
        subst h1
        exact ⟨st, List.mem_cons_self _ _, not_not.mp (by assumption)⟩
      · split at h
        · injection h with h'
          injection h' with h1 h2
          subst h1
          exact ⟨st, List.mem_cons_self _ _, not_not.mp (by assumption)⟩
        · obtain ⟨st', hm, hp'⟩ := ih h
          exact ⟨st', List.mem_cons_of_mem _ hm, hp'⟩

theorem scanTier_single_fail (cfg : Config) (now : Int)
    (axis : HealthStatus → Bool) (axisErr : HealthStatus → Option GoErr)
    {l : List (String × HealthStatus)} {X : String} {stX : HealthStatus}
    (hnd : (l.map Prod.fst).Nodup) (hmem : (X, stX) ∈ l)
    (hothers : ∀ x ∈ l, x.1 ≠ X → passes cfg now axis x.2)
    (hfail : ¬ passes cfg now axis stX) :
    scanTier cfg now stX.priority axis axisErr l =
      some (X, if now - stX.lastUpdate > cfg.expiryTime then some GoErr.expired
               else axisErr stX) := by
  induction l with
  | nil => cases hmem
  | cons hd tl ih =>
    obtain ⟨name, st⟩ := hd
    simp only [List.map_cons, List.nodup_cons] at hnd
    by_cases hx : name = X
    · subst hx
      have hst : st = stX := by
        rcases List.mem_cons.mp hmem with heq | hmemtl
        · injection heq with e1 e2
          exact e2.symm
        · exact absurd (List.mem_map_of_mem Prod.fst hmemtl) hnd.1
      subst hst
      rw [scanTier, if_neg (not_not_intro rfl)]
      by_cases he : now - st.lastUpdate > cfg.expiryTime
      · rw [if_pos he, if_pos he]
      · have haxis : axis st = false := by
          rcases Bool.eq_false_or_eq_true (axis st) with hb | hb
          · exact absurd ⟨by omega, hb⟩ hfail
          · exact hb
        rw [if_neg he, if_pos haxis, if_neg he]
    · have hpass := hothers (name, st) (List.mem_cons_self _ _) hx
      have hpass1 : now - st.lastUpdate ≤ cfg.expiryTime := hpass.1
      have hpass2 : axis st = true := hpass.2
      have hmemtl : (X, stX) ∈ tl := by
        rcases List.mem_cons.mp hmem with heq | hmemtl
        · injection heq with e1 e2
          exact absurd e1.symm hx
        · exact hmemtl
      have hrec := ih hnd.2 hmemtl
        (fun x hx' hne => hothers x (List.mem_cons_of_mem _ hx') hne)
      by_cases hp : st.priority = stX.priority
      · rw [scanTier, if_neg (not_not_intro hp), if_neg (by omega),
          if_neg (by simp [hpass2])]
        exact hrec
      · rw [scanTier, if_pos hp]
        exact hrec

theorem scanPriorities_eq_none (cfg : Config) (now : Int)
    (axis : HealthStatus → Bool) (axisErr : HealthStatus → Option GoErr)
    (ps : List Priority) (l : List (String × HealthStatus))
    (h : ∀ x ∈ l, passes cfg now axis x.2) :
    scanPriorities cfg now axis axisErr ps l = none := by
  induction ps with
  | nil => rfl
  | cons p ps ih =>
    rw [scanPriorities, scanTier_eq_none cfg now p axis axisErr l
      (fun x hx _ => h x hx)]
    exact ih

theorem mem_priorityOrder (p : Priority) : p ∈ priorityOrder := by
  cases p <;> simp [priorityOrder]

theorem scanPriorities_single_fail (cfg : Config) (now : Int)
    (axis : HealthStatus → Bool) (axisErr : HealthStatus → Option GoErr)
    {l : List (String × HealthStatus)} {X : String} {stX : HealthStatus}
    (hnd : (l.map Prod.fst).Nodup) (hmem : (X, stX) ∈ l)
    (hothers : ∀ x ∈ l, x.1 ≠ X → passes cfg now axis x.2)
    (hfail : ¬ passes cfg now axis stX) :
    scanPriorities cfg now axis axisErr priorityOrder l =
      some (X, if now - stX.lastUpdate > cfg.expiryTime then some GoErr.expired
               else axisErr stX) := by
  have haux : ∀ ps : List Priority, stX.priority ∈ ps →
      scanPriorities cfg now axis axisErr ps l =
        some (X, if now - stX.lastUpdate > cfg.expiryTime then some GoErr.expired
                 else axisErr stX) := by
    intro ps
    induction ps with
    | nil => intro h; cases h
    | cons q qs ih =>
      intro hps
      by_cases hq : q = stX.priority
      · subst hq
        rw [scanPriorities,
          scanTier_single_fail cfg now axis axisErr hnd hmem hothers hfail]
      · have hmemqs : stX.priority ∈ qs := by
          rcases List.mem_cons.mp hps with h' | h'
          · exact absurd h'.symm hq
          · exact h'
        have hnone : scanTier cfg now q axis axisErr l = none := by
          apply scanTier_eq_none
          intro x hx hxp
          by_cases hxX : x.1 = X
          · exfalso
            have hx' : (X, x.2) ∈ l := hxX ▸ hx
            have : x.2 = stX := val_eq_of_mem_nodup hnd hx' hmem
            exact hq ((this ▸ hxp).symm)
          · exact hothers x hx hxX
        rw [scanPriorities, hnone]
        exact ih hmemqs
  exact haux priorityOrder (mem_priorityOrder _)

/-- `GetLiveness` on a store whose only failing entry (on the liveness axis)
is `X`. -/
theorem getLiveness_single_fail (cfg : Config) (now : Int) {s : AggState}
    {X : String} {stX : HealthStatus}
    (hnd : (s.statuses.map Prod.fst).Nodup) (hmem : (X, stX) ∈ s.statuses)
    (hothers : ∀ x ∈ s.statuses, x.1 ≠ X →
      passes cfg now (fun st => st.liveness) x.2)
    (hfail : ¬ passes cfg now (fun st => st.liveness) stX) :
    getLiveness cfg now s =
      (false, [(X, if now - stX.lastUpdate > cfg.expiryTime
                   then some GoErr.expired else stX.livenessErr)]) := by
  unfold getLiveness
  rw [scanPriorities_single_fail cfg now _ _ hnd hmem hothers hfail]

/-- `GetReadiness` on a store whose only failing entry (on the readiness
axis) is `X`. -/
theorem getReadiness_single_fail (cfg : Config) (now : Int) {s : AggState}
    {X : String} {stX : HealthStatus}
    (hnd : (s.statuses.map Prod.fst).Nodup) (hmem : (X, stX) ∈ s.statuses)
    (hothers : ∀ x ∈ s.statuses, x.1 ≠ X →
      passes cfg now (fun st => st.readiness) x.2)
    (hfail : ¬ passes cfg now (fun st => st.readiness) stX) :
    getReadiness cfg now s =
      (false, [(X, if now - stX.lastUpdate > cfg.expiryTime
                   then some GoErr.expired else stX.readinessErr)]) := by
  unfold getReadiness
  rw [scanPriorities_single_fail cfg now _ _ hnd hmem hothers hfail]

/-- `GetLiveness` on a store all of whose entries pass the liveness axis. -/
theorem getLiveness_all_pass (cfg : Config) (now : Int) {s : AggState}
    (h : ∀ x ∈ s.statuses, passes cfg now (fun st => st.liveness) x.2) :
    getLiveness cfg now s = (true, []) := by
  unfold getLiveness
  rw [scanPriorities_eq_none cfg now _ _ priorityOrder s.statuses h]

/-- `GetReadiness` on a store all of whose entries pass the readiness axis. -/
theorem getReadiness_all_pass (cfg : Config) (now : Int) {s : AggState}
    (h : ∀ x ∈ s.statuses, passes cfg now (fun st => st.readiness) x.2) :
    getReadiness cfg now s = (true, []) := by
  unfold getReadiness
  rw [scanPriorities_eq_none cfg now _ _ priorityOrder s.statuses h]

/-! ### Pipeline and scheduler lemmas -/

theorem updateHealth_statuses (name : String) (le re : Option GoErr)
    (now : Int) (s : AggState) :
    (updateHealth name le re now s).statuses = s.statuses := by
  unfold updateHealth
  cases lookupAL s.statuses name <;> rfl

theorem updateHealth_backoffTimes (name : String) (le re : Option GoErr)
    (now : Int) (s : AggState) :
    (updateHealth name le re now s).backoffTimes = s.backoffTimes := by
  unfold updateHealth
  cases lookupAL s.statuses name <;> rfl

theorem updateHealth_lastCheckAttempt (name : String) (le re : Option GoErr)
    (now : Int) (s : AggState) :
    (updateHealth name le re now s).lastCheckAttempt = s.lastCheckAttempt := by
  unfold updateHealth
  cases lookupAL s.statuses name <;> rfl

theorem backoffSkip_iff (name : String) (now : Int) (s : AggState) :
    backoffSkip name now s = true ↔
      0 < (lookupAL s.backoffTimes name).getD 0 ∧
        ∃ t, lookupAL s.lastCheckAttempt name = some t ∧
          now - t < (lookupAL s.backoffTimes name).getD 0 := by
  unfold backoffSkip
  cases h : lookupAL s.lastCheckAttempt name <;> simp [h]

/-- A skipped `checkHealth` cycle leaves the state untouched and performs no
observable action. -/
theorem checkHealth_skipped (cfg : Config) (name : String)
    (le re : Option GoErr) (now : Int) (s : AggState)
    (h : backoffSkip name now s = true) :
    checkHealth cfg name le re now s = (s, []) := by
  unfold checkHealth
  rw [if_pos h]

/-- A non-skipped `checkHealth` cycle: stamp `lastCheckAttempt`, record the
new backoff, and hand both probe results to `UpdateHealth`. -/
theorem checkHealth_not_skipped (cfg : Config) (name : String)
    (le re : Option GoErr) (now : Int) (s : AggState)
    (h : backoffSkip name now s = false) :
    checkHealth cfg name le re now s =
      (updateHealth name le re now
        { s with
          lastCheckAttempt := insertAL s.lastCheckAttempt name now
          backoffTimes := insertAL s.backoffTimes name
            (nextBackoff cfg ((lookupAL s.backoffTimes name).getD 0) le re) },
       [Event.setLastAttempt name now, Event.probeLiveness name,
        Event.probeReadiness name, Event.submit name le re]) := by
  unfold checkHealth
  rw [if_neg (by simp [h])]

theorem nextBackoff_eq_min (cfg : Config) (b : Int) (le re : Option GoErr)
    (h : le ≠ none ∨ re ≠ none) :
    nextBackoff cfg b le re =
      min (if b = 0 then Int.tdiv cfg.checkInterval 2
           else ratTruncToInt ((b : ℚ) * cfg.backoffFactor))
        cfg.maxBackoff := by
  unfold nextBackoff
  rw [if_pos h]
  rcases le_or_lt
      (if b = 0 then Int.tdiv cfg.checkInterval 2
       else ratTruncToInt ((b : ℚ) * cfg.backoffFactor)) cfg.maxBackoff with
    hle | hlt
  · rw [if_neg (not_lt.mpr hle), min_eq_left hle]
  · rw [if_pos hlt, min_eq_right (le_of_lt hlt)]

theorem nextBackoff_reset (cfg : Config) (b : Int) :
    nextBackoff cfg b none none = 0 := by
  unfold nextBackoff
  rw [if_neg (by simp)]

theorem nextBackoff_le (cfg : Config) (b : Int) (le re : Option GoErr)
    (hmax : 0 ≤ cfg.maxBackoff) : nextBackoff cfg b le re ≤ cfg.maxBackoff := by
  by_cases h : le ≠ none ∨ re ≠ none
  · rw [nextBackoff_eq_min cfg b le re h]
    exact min_le_right _ _
  · push_neg at h
    rw [h.1, h.2, nextBackoff_reset]
    exact hmax

/-! ### Claim theorems -/

/-- Claim C7: `UpdateHealth` for a never-registered identity is a silent
no-op — the returned state is the input state, so nothing is enqueued on the
update channel, the store is untouched, and (since the callback only fires
when the pipeline consumer dequeues an update) the status-change callback is
never triggered. -/
theorem updateHealth_unregistered_noop (name : String) (le re : Option GoErr)
    (now : Int) (s : AggState) (h : lookupAL s.statuses name = none) :
    updateHealth name le re now s = s := by
  unfold updateHealth
  rw [h]

/-- Claim C7 witness: submitting for an identity absent from an empty store
changes nothing. -/
theorem updateHealth_unregistered_noop_witness :
    updateHealth "x" (some (GoErr.custom "e")) none 0 emptyAgg = emptyAgg :=
  updateHealth_unregistered_noop "x" (some (GoErr.custom "e")) none 0 emptyAgg
    (by decide)

/-- Claim C8: `GetLiveness` and `GetReadiness` always return a boolean plus
an error map; when the boolean is false the map holds exactly one entry, and
when every checker passes the relevant axis (no failure, no expiry) the
result is `(true, empty)`. -/
theorem queries_total_and_single_error (cfg : Config) (now : Int)
    (s : AggState) :
    (getLiveness cfg now s = (true, []) ∨
      ∃ n e, getLiveness cfg now s = (false, [(n, e)])) ∧
    (getReadiness cfg now s = (true, []) ∨
      ∃ n e, getReadiness cfg now s = (false, [(n, e)])) ∧
    ((∀ x ∈ s.statuses, passes cfg now (fun st => st.liveness) x.2) →
      getLiveness cfg now s = (true, [])) ∧
    ((∀ x ∈ s.statuses, passes cfg now (fun st => st.readiness) x.2) →
      getReadiness cfg now s = (true, [])) := by
  refine ⟨?_, ?_, getLiveness_all_pass cfg now, getReadiness_all_pass cfg now⟩
  · unfold getLiveness
    cases h : scanPriorities cfg now (fun st => st.liveness)
        (fun st => st.livenessErr) priorityOrder s.statuses with
    | none => exact Or.inl rfl
    | some r =>
      obtain ⟨n, e⟩ := r
      exact Or.inr ⟨n, e, rfl⟩
  · unfold getReadiness
    cases h : scanPriorities cfg now (fun st => st.readiness)
        (fun st => st.readinessErr) priorityOrder s.statuses with
    | none => exact Or.inl rfl
    | some r =>
      obtain ⟨n, e⟩ := r
      exact Or.inr ⟨n, e, rfl⟩

/-- Claim C8 witness: on a store with a single healthy checker both queries
return `(true, empty)`. -/
theorem queries_total_and_single_error_witness :
    getLiveness cfgW 0 sOneUp = (true, []) ∧
    getReadiness cfgW 0 sOneUp = (true, []) :=
  ⟨(queries_total_and_single_error cfgW 0 sOneUp).2.2.1 (by decide),
   (queries_total_and_single_error cfgW 0 sOneUp).2.2.2 (by decide)⟩

/-- Claim C10: in every non-skipped cycle `checkHealth` performs exactly the
actions `lastCheckAttempt := now`, `CheckLiveness`, `CheckReadiness`, and a
single `UpdateHealth` call carrying both results, in that order — in
particular `CheckReadiness` is invoked even when the liveness result
`le` is a non-nil error, and both results travel in one submission. -/
theorem checkHealth_invokes_both_probes (cfg : Config) (name : String)
    (le re : Option GoErr) (now : Int) (s : AggState)
    (hns : backoffSkip name now s = false) :
    (checkHealth cfg name le re now s).2 =
      [Event.setLastAttempt name now, Event.probeLiveness name,
       Event.probeReadiness name, Event.submit name le re] := by
  rw [checkHealth_not_skipped cfg name le re now s hns]

/-- Claim C10 witness: with a failing liveness probe the readiness probe is
still invoked and one combined submission is made. -/
theorem checkHealth_invokes_both_probes_witness :
    (checkHealth cfgW "x" (some (GoErr.custom "down")) none 0 emptyAgg).2 =
      [Event.setLastAttempt "x" 0, Event.probeLiveness "x",
       Event.probeReadiness "x",
       Event.submit "x" (some (GoErr.custom "down")) none] :=
  checkHealth_invokes_both_probes cfgW "x" (some (GoErr.custom "down")) none 0
    emptyAgg (by decide)

/-- Claim C6: a `checkHealth` cycle skips entirely (state unchanged, no
observable action) exactly when the recorded backoff is positive and
`now - lastAttempt` is still below it; and in every non-skipped cycle the
action trace starts with the `lastCheckAttempt := now` write, before either
probe runs, and that write is visible in the resulting state. -/
theorem checkHealth_skip_iff_backoff (cfg : Config) (name : String)
    (le re : Option GoErr) (now : Int) (s : AggState) :
    (checkHealth cfg name le re now s = (s, []) ↔
      0 < (lookupAL s.backoffTimes name).getD 0 ∧
        ∃ t, lookupAL s.lastCheckAttempt name = some t ∧
          now - t < (lookupAL s.backoffTimes name).getD 0) ∧
    (backoffSkip name now s = false →
      (checkHealth cfg name le re now s).2 =
          [Event.setLastAttempt name now, Event.probeLiveness name,
           Event.probeReadiness name, Event.submit name le re] ∧
        lookupAL (checkHealth cfg name le re now s).1.lastCheckAttempt name =
          some now) := by
  constructor
  · constructor
    · intro h
      rcases Bool.eq_false_or_eq_true (backoffSkip name now s) with hb | hb
      · exact (backoffSkip_iff name now s).mp hb
      · exfalso
        have h2 := congrArg Prod.snd (checkHealth_not_skipped cfg name le re now s hb)
        rw [h] at h2
        cases h2
    · intro h
      exact checkHealth_skipped cfg name le re now s
        ((backoffSkip_iff name now s).mpr h)
  · intro hns
    rw [checkHealth_not_skipped cfg name le re now s hns]
    refine ⟨rfl, ?_⟩
    rw [updateHealth_lastCheckAttempt]
    exact lookupAL_insertAL_self _ name now

/-- Claim C6 witness: with no recorded backoff the cycle is not skipped, the
trace starts with the `lastCheckAttempt` write, and the write lands in the
state. -/
theorem checkHealth_skip_iff_backoff_witness :
    (checkHealth cfgW "x" none none 7 emptyAgg).2 =
        [Event.setLastAttempt "x" 7, Event.probeLiveness "x",
         Event.probeReadiness "x", Event.submit "x" none none] ∧
      lookupAL (checkHealth cfgW "x" none none 7 emptyAgg).1.lastCheckAttempt
        "x" = some 7 :=
  (checkHealth_skip_iff_backoff cfgW "x" none none 7 emptyAgg).2 (by decide)

/-- Claim C5: in a non-skipped cycle with a failing probe the new stored
backoff is the clamp to `MaxBackoff` of (`CheckInterval / 2` when the old
backoff was zero, else the old backoff times `BackoffFactor`); with both
probes succeeding it is reset to 0; and whenever every stored backoff was at
most `MaxBackoff`, that bound still holds after any cycle (skipped or not),
provided `MaxBackoff` is nonnegative. -/
theorem checkHealth_backoff_growth_and_cap (cfg : Config) (name : String)
    (le re : Option GoErr) (now : Int) (s : AggState)
    (hmax : 0 ≤ cfg.maxBackoff) :
    (backoffSkip name now s = false →
      ((le ≠ none ∨ re ≠ none) →
        lookupAL (checkHealth cfg name le re now s).1.backoffTimes name =
          some (min (if (lookupAL s.backoffTimes name).getD 0 = 0
                     then Int.tdiv cfg.checkInterval 2
                     else ratTruncToInt
                       (((lookupAL s.backoffTimes name).getD 0 : ℚ) *
                         cfg.backoffFactor))
            cfg.maxBackoff)) ∧
      (le = none → re = none →
        lookupAL (checkHealth cfg name le re now s).1.backoffTimes name =
          some 0)) ∧
    ((∀ x ∈ s.backoffTimes, x.2 ≤ cfg.maxBackoff) →
      ∀ x ∈ (checkHealth cfg name le re now s).1.backoffTimes,
        x.2 ≤ cfg.maxBackoff) := by
  constructor
  · intro hns
    constructor
    · intro herr
      rw [checkHealth_not_skipped cfg name le re now s hns,
        updateHealth_backoffTimes, lookupAL_insertAL_self,
        nextBackoff_eq_min cfg _ le re herr]
    · intro hle hre
      subst hle
      subst hre
      rw [checkHealth_not_skipped cfg name none none now s hns,
        updateHealth_backoffTimes, lookupAL_insertAL_self, nextBackoff_reset]
  · intro hall x hx
    rcases Bool.eq_false_or_eq_true (backoffSkip name now s) with hb | hb
    · rw [checkHealth_skipped cfg name le re now s hb] at hx
      exact hall x hx
    · rw [checkHealth_not_skipped cfg name le re now s hb,
        updateHealth_backoffTimes] at hx
      rcases mem_insertAL hx with h' | h'
      · rw [h']
        exact nextBackoff_le cfg _ le re hmax
      · exact hall x h'

/-- Claim C5 witness: from zero backoff, a failing probe sets the stored
backoff to the clamped `CheckInterval / 2`. -/
theorem checkHealth_backoff_growth_and_cap_witness :
    lookupAL (checkHealth cfgW "x" (some (GoErr.custom "e")) none 0
        emptyAgg).1.backoffTimes "x" =
      some (min (if (lookupAL emptyAgg.backoffTimes "x").getD 0 = 0
                 then Int.tdiv cfgW.checkInterval 2
                 else ratTruncToInt
                   (((lookupAL emptyAgg.backoffTimes "x").getD 0 : ℚ) *
                     cfgW.backoffFactor))
        cfgW.maxBackoff) :=
  ((checkHealth_backoff_growth_and_cap cfgW "x" (some (GoErr.custom "e")) none
      0 emptyAgg (by decide)).1 (by decide)).1 (by decide)

/-- Claim C1: on any store (with unique identities) holding a failing
Critical-priority checker and a failing Low-priority checker, `GetLiveness`
returns false with a single-entry error map whose key is the identity of a
Critical-priority checker — never the Low one — because the Critical tier is
scanned first and the query returns at the first failure found there. -/
theorem getLiveness_reports_critical_over_low (cfg : Config) (now : Int)
    (s : AggState) (hnd : (s.statuses.map Prod.fst).Nodup)
    (cN lN : String) (cSt lSt : HealthStatus)
    (hcMem : (cN, cSt) ∈ s.statuses) (hcP : cSt.priority = Priority.critical)
    (hcF : cSt.liveness = false)
    (hlMem : (lN, lSt) ∈ s.statuses) (hlP : lSt.priority = Priority.low)
    (hlF : lSt.liveness = false) :
    ∃ n e st, getLiveness cfg now s = (false, [(n, e)]) ∧
      (n, st) ∈ s.statuses ∧ st.priority = Priority.critical ∧ n ≠ lN := by
  have hfail : ¬ passes cfg now (fun st => st.liveness) cSt := by
    intro hp
    have h2 : cSt.liveness = true := hp.2
    rw [hcF] at h2
    cases h2
  obtain ⟨⟨n, e⟩, hscan⟩ := scanTier_isSome cfg now Priority.critical
    (fun st => st.liveness) (fun st => st.livenessErr) hcMem hcP hfail
  obtain ⟨st, hstMem, hstP⟩ := scanTier_some_mem cfg now Priority.critical
    (fun st => st.liveness) (fun st => st.livenessErr) hscan
  have hne : n ≠ lN := by
    intro hEq
    subst hEq
    have hst : st = lSt := val_eq_of_mem_nodup hnd hstMem hlMem
    rw [hst, hlP] at hstP
    cases hstP
  have hsp : scanPriorities cfg now (fun st => st.liveness)
      (fun st => st.livenessErr) priorityOrder s.statuses = some (n, e) := by
    rw [priorityOrder, scanPriorities, hscan]
  refine ⟨n, e, st, ?_, hstMem, hstP, hne⟩
  unfold getLiveness
  rw [hsp]

/-- Claim C1 witness: with a failing Critical checker and a failing Low
checker in the store, the reported key is a Critical identity, not the Low
one. -/
theorem getLiveness_reports_critical_over_low_witness :
    ∃ n e st, getLiveness cfgW 0 sCritLow = (false, [(n, e)]) ∧
      (n, st) ∈ sCritLow.statuses ∧ st.priority = Priority.critical ∧
      n ≠ "l" :=
  getLiveness_reports_critical_over_low cfgW 0 sCritLow (by decide) "c" "l"
    stDownCrit stDownLow (by decide) rfl rfl (by decide) rfl rfl

/-- Claim C3: a checker whose record satisfies
`now - lastUpdate > expiryTime` at query time makes both `GetLiveness` and
`GetReadiness` return `(false, {identity: ErrHealthCheckExpired})` — its
recorded liveness and readiness booleans are irrelevant (they are not even
hypotheses here) — provided it is the store's only failing or expired entry,
since the queries report only the first failure encountered. -/
theorem expired_checker_fails_both_queries (cfg : Config) (now : Int)
    (s : AggState) (X : String) (stX : HealthStatus)
    (hnd : (s.statuses.map Prod.fst).Nodup) (hmem : (X, stX) ∈ s.statuses)
    (hexp : now - stX.lastUpdate > cfg.expiryTime)
    (hothers : ∀ x ∈ s.statuses, x.1 ≠ X →
      passes cfg now (fun st => st.liveness) x.2 ∧
      passes cfg now (fun st => st.readiness) x.2) :
    getLiveness cfg now s = (false, [(X, some GoErr.expired)]) ∧
    getReadiness cfg now s = (false, [(X, some GoErr.expired)]) := by
  have hfailL : ¬ passes cfg now (fun st => st.liveness) stX := by
    intro hp
    have h1 : now - stX.lastUpdate ≤ cfg.expiryTime := hp.1
    omega
  have hfailR : ¬ passes cfg now (fun st => st.readiness) stX := by
    intro hp
    have h1 : now - stX.lastUpdate ≤ cfg.expiryTime := hp.1
    omega
  constructor
  · rw [getLiveness_single_fail cfg now hnd hmem
      (fun x hx hne => (hothers x hx hne).1) hfailL, if_pos hexp]
  · rw [getReadiness_single_fail cfg now hnd hmem
      (fun x hx hne => (hothers x hx hne).2) hfailR, if_pos hexp]

/-- Claim C3 witness: a stale record with both booleans true is reported as
expired by both queries. -/
theorem expired_checker_fails_both_queries_witness :
    getLiveness cfgW 0 sOneStale = (false, [("s", some GoErr.expired)]) ∧
    getReadiness cfgW 0 sOneStale = (false, [("s", some GoErr.expired)]) :=
  expired_checker_fails_both_queries cfgW 0 sOneStale "s" stStale (by decide)
    (by decide) (by decide) (by decide)

/-- Claim C4: `RegisterHealthCheck` inserts or replaces the store entry for
the checker's identity with both booleans false, both error fields nil and
`lastUpdate = now`, with no error path; consequently, before any result is
applied for that identity and before its fresh record expires, both queries
report it as failing (its identity is the single key of the error map),
provided every other checker is healthy so that the new entry is the first
failure found. -/
theorem register_resets_entry_and_reports_failing (cfg : Config)
    (s : AggState) (name : String) (p : Priority) (now qnow : Int)
    (hnd : (s.statuses.map Prod.fst).Nodup)
    (hfresh : qnow - now ≤ cfg.expiryTime)
    (hothers : ∀ x ∈ s.statuses, x.1 ≠ name →
      passes cfg qnow (fun st => st.liveness) x.2 ∧
      passes cfg qnow (fun st => st.readiness) x.2) :
    lookupAL (registerHealthCheck name p now s).statuses name =
      some { priority := p, liveness := false, readiness := false,
             lastUpdate := now, livenessErr := none, readinessErr := none } ∧
    (∃ e, getLiveness cfg qnow (registerHealthCheck name p now s) =
      (false, [(name, e)])) ∧
    (∃ e, getReadiness cfg qnow (registerHealthCheck name p now s) =
      (false, [(name, e)])) := by
  have hmem : (name,
      ({ priority := p, liveness := false, readiness := false,
         lastUpdate := now, livenessErr := none,
         readinessErr := none } : HealthStatus)) ∈
      (registerHealthCheck name p now s).statuses :=
    mem_insertAL_self s.statuses name _
  have hnd' : ((registerHealthCheck name p now s).statuses.map Prod.fst).Nodup :=
    nodup_keys_insertAL name _ hnd
  have hothersL : ∀ x ∈ (registerHealthCheck name p now s).statuses,
      x.1 ≠ name → passes cfg qnow (fun st => st.liveness) x.2 := by
    intro x hx hne
    rcases mem_insertAL hx with h' | h'
    · exact absurd (congrArg Prod.fst h') hne
    · exact (hothers x h' hne).1
  have hothersR : ∀ x ∈ (registerHealthCheck name p now s).statuses,
      x.1 ≠ name → passes cfg qnow (fun st => st.readiness) x.2 := by
    intro x hx hne
    rcases mem_insertAL hx with h' | h'
    · exact absurd (congrArg Prod.fst h') hne
    · exact (hothers x h' hne).2
  refine ⟨lookupAL_insertAL_self s.statuses name _, ⟨none, ?_⟩, ⟨none, ?_⟩⟩
  · rw [getLiveness_single_fail cfg qnow hnd' hmem hothersL
      (fun hp => Bool.noConfusion hp.2),
      if_neg (by show ¬ qnow - now > cfg.expiryTime; omega)]
  · rw [getReadiness_single_fail cfg qnow hnd' hmem hothersR
      (fun hp => Bool.noConfusion hp.2),
      if_neg (by show ¬ qnow - now > cfg.expiryTime; omega)]

/-- Claim C4 witness: registering into an empty aggregator stores the
zero-value record and both queries immediately report that identity. -/
theorem register_resets_entry_and_reports_failing_witness :
    lookupAL (registerHealthCheck "x" Priority.medium 0 emptyAgg).statuses
        "x" =
      some { priority := Priority.medium, liveness := false,
             readiness := false, lastUpdate := 0, livenessErr := none,
             readinessErr := none } ∧
    (∃ e, getLiveness cfgW 5 (registerHealthCheck "x" Priority.medium 0
      emptyAgg) = (false, [("x", e)])) ∧
    (∃ e, getReadiness cfgW 5 (registerHealthCheck "x" Priority.medium 0
      emptyAgg) = (false, [("x", e)])) :=
  register_resets_entry_and_reports_failing cfgW emptyAgg "x" Priority.medium
    0 5 (by decide) (by decide) (by decide)

/-- Claim C9: a freshly registered, never-updated checker that fails a query
through its unknown initial state (its record is not expired) is reported
with a nil error value: registration leaves `LivenessErr` nil and
`GetLiveness` surfaces the recorded error verbatim, so the single map entry
maps the identity to `none`. -/
theorem fresh_registration_surfaces_nil_error (cfg : Config) (s : AggState)
    (name : String) (p : Priority) (now qnow : Int)
    (hnd : (s.statuses.map Prod.fst).Nodup)
    (hfresh : qnow - now ≤ cfg.expiryTime)
    (hothers : ∀ x ∈ s.statuses, x.1 ≠ name →
      passes cfg qnow (fun st => st.liveness) x.2) :
    getLiveness cfg qnow (registerHealthCheck name p now s) =
      (false, [(name, none)]) := by
  have hmem : (name,
      ({ priority := p, liveness := false, readiness := false,
         lastUpdate := now, livenessErr := none,
         readinessErr := none } : HealthStatus)) ∈
      (registerHealthCheck name p now s).statuses :=
    mem_insertAL_self s.statuses name _
  have hnd' : ((registerHealthCheck name p now s).statuses.map Prod.fst).Nodup :=
    nodup_keys_insertAL name _ hnd
  have hothersL : ∀ x ∈ (registerHealthCheck name p now s).statuses,
      x.1 ≠ name → passes cfg qnow (fun st => st.liveness) x.2 := by
    intro x hx hne
    rcases mem_insertAL hx with h' | h'
    · exact absurd (congrArg Prod.fst h') hne
    · exact hothers x h' hne
  rw [getLiveness_single_fail cfg qnow hnd' hmem hothersL
    (fun hp => Bool.noConfusion hp.2),
    if_neg (by show ¬ qnow - now > cfg.expiryTime; omega)]

/-- Claim C9 witness: the error reported for a fresh registration is `none`
(Go `nil`). -/
theorem fresh_registration_surfaces_nil_error_witness :
    getLiveness cfgW 5 (registerHealthCheck "x" Priority.low 0 emptyAgg) =
      (false, [("x", none)]) :=
  fresh_registration_surfaces_nil_error cfgW emptyAgg "x" Priority.low 0 5
    (by decide) (by decide) (by decide)

/-- Claim C2: for a registered checker `X`, `UpdateHealth` enqueues a status
built with liveness = (livenessErr == nil), readiness = (readinessErr ==
nil), lastUpdate = now and the priority copied from `X`'s existing
registration; and once the pipeline applies `UpdateHealth(X, err, nil)` (on
an otherwise healthy store), `GetLiveness` fails attributing `err` to `X`
while `GetReadiness` still returns `(true, empty)` — the liveness error
alone does not affect it. -/
theorem updateHealth_builds_and_applies (cfg : Config) (s : AggState)
    (X : String) (st0 : HealthStatus) (le re : Option GoErr) (ge : GoErr)
    (now qnow : Int)
    (hreg : lookupAL s.statuses X = some st0)
    (hch : s.updateChannel = [])
    (hnd : (s.statuses.map Prod.fst).Nodup)
    (hfresh : qnow - now ≤ cfg.expiryTime)
    (hothers : ∀ x ∈ s.statuses, x.1 ≠ X →
      passes cfg qnow (fun st => st.liveness) x.2 ∧
      passes cfg qnow (fun st => st.readiness) x.2) :
    updateHealth X le re now s =
      { s with updateChannel := s.updateChannel ++
          [(X, { priority := st0.priority, liveness := le.isNone,
                 readiness := re.isNone, lastUpdate := now,
                 livenessErr := le, readinessErr := re })] } ∧
    getLiveness cfg qnow
        (processUpdates1 (updateHealth X (some ge) none now s)).1 =
      (false, [(X, some ge)]) ∧
    getReadiness cfg qnow
        (processUpdates1 (updateHealth X (some ge) none now s)).1 =
      (true, []) := by
  have hbuild : ∀ le' re' : Option GoErr, updateHealth X le' re' now s =
      { s with updateChannel := s.updateChannel ++
          [(X, { priority := st0.priority, liveness := le'.isNone,
                 readiness := re'.isNone, lastUpdate := now,
                 livenessErr := le', readinessErr := re' })] } := by
    intro le' re'
    unfold updateHealth
    rw [hreg]
  have happly : (processUpdates1 (updateHealth X (some ge) none now s)).1 =
      { s with
        statuses := insertAL s.statuses X
          ({ priority := st0.priority, liveness := false, readiness := true,
             lastUpdate := now, livenessErr := some ge,
             readinessErr := none } : HealthStatus),
        updateChannel := [] } := by
    rw [hbuild (some ge) none, hch]
    rfl
  have hndN : ((insertAL s.statuses X
      ({ priority := st0.priority, liveness := false, readiness := true,
         lastUpdate := now, livenessErr := some ge,
         readinessErr := none } : HealthStatus)).map Prod.fst).Nodup :=
    nodup_keys_insertAL X _ hnd
  have hmemN : (X,
      ({ priority := st0.priority, liveness := false, readiness := true,
         lastUpdate := now, livenessErr := some ge,
         readinessErr := none } : HealthStatus)) ∈
      insertAL s.statuses X
        ({ priority := st0.priority, liveness := false, readiness := true,
           lastUpdate := now, livenessErr := some ge,
           readinessErr := none } : HealthStatus) :=
    mem_insertAL_self _ _ _
  refine ⟨hbuild le re, ?_, ?_⟩
  · rw [happly]
    have hothersL : ∀ x ∈ insertAL s.statuses X
        ({ priority := st0.priority, liveness := false, readiness := true,
           lastUpdate := now, livenessErr := some ge,
           readinessErr := none } : HealthStatus),
        x.1 ≠ X → passes cfg qnow (fun st => st.liveness) x.2 := by
      intro x hx hne
      rcases mem_insertAL hx with h' | h'
      · exact absurd (congrArg Prod.fst h') hne
      · exact (hothers x h' hne).1
    rw [getLiveness_single_fail cfg qnow hndN hmemN hothersL
      (fun hp => Bool.noConfusion hp.2),
      if_neg (by show ¬ qnow - now > cfg.expiryTime; omega)]
  · rw [happly]
    apply getReadiness_all_pass
    intro x hx
    by_cases hxX : x.1 = X
    · have h2 : (x.1, x.2) ∈ insertAL s.statuses X
          ({ priority := st0.priority, liveness := false, readiness := true,
             lastUpdate := now, livenessErr := some ge,
             readinessErr := none } : HealthStatus) := by
        rw [Prod.mk.eta]
        exact hx
      rw [hxX] at h2
      have hval : x.2 =
          ({ priority := st0.priority, liveness := false, readiness := true,
             lastUpdate := now, livenessErr := some ge,
             readinessErr := none } : HealthStatus) :=
        val_eq_of_mem_nodup hndN h2 hmemN
      rw [hval]
      exact ⟨by show qnow - now ≤ cfg.expiryTime; omega, rfl⟩
    · rcases mem_insertAL hx with h' | h'
      · exact absurd (congrArg Prod.fst h') hxX
      · exact (hothers x h' hxX).2

/-- Claim C2 witness: after submitting and applying a liveness error for the
registered checker of `sOneUp`, liveness fails with that error while
readiness stays `(true, empty)`. -/
theorem updateHealth_builds_and_applies_witness :
    getLiveness cfgW 0
        (processUpdates1 (updateHealth "x" (some (GoErr.custom "err")) none 0
          sOneUp)).1 =
      (false, [("x", some (GoErr.custom "err"))]) ∧
    getReadiness cfgW 0
        (processUpdates1 (updateHealth "x" (some (GoErr.custom "err")) none 0
          sOneUp)).1 =
      (true, []) :=
  ⟨(updateHealth_builds_and_applies cfgW sOneUp "x" stUpCrit none none
      (GoErr.custom "err") 0 0 (by decide) rfl (by decide) (by decide)
      (by decide)).2.1,
   (updateHealth_builds_and_applies cfgW sOneUp "x" stUpCrit none none
      (GoErr.custom "err") 0 0 (by decide) rfl (by decide) (by decide)
      (by decide)).2.2⟩

end GoPulse
